import Mathlib

/-!
Shallow embedding of the Stardust Drifter simulation core.

The definitions below are translated from the repository's JavaScript
sources: the refactored game loop (state machine, entity updates,
collision sweep, level progression) and the optimized collision layer
(AABB pre-filter, spatial grid).  Positions, velocities, radii and the
score are JavaScript numbers; they are modelled as rationals, which is
exact for every arithmetic operation the code performs on them except
`Math.hypot`, whose comparisons against a radius sum are encoded
square-root-free (see `collides`).  `Math.random()` is modelled as an
explicit stream `rnd : ℕ → ℚ` together with a cursor index that each
random-consuming function advances by exactly the number of calls the
JavaScript makes, in source order.
-/

namespace Stardust

/-! ## Tunable constants (verbatim from the configuration block) -/

def PLAYER_RADIUS : ℚ := 20
def PLANET_MIN_RADIUS : ℚ := 20
def PLANET_MAX_RADIUS : ℚ := 50
def GRAVITY : ℚ := 1/2
def COMET_START_LEVEL : ℕ := 3
def COMET_SPEED : ℚ := 2
def COMET_RADIUS : ℚ := 15
def STAR_SPAWN_RATE : ℚ := 1/100
def STAR_RADIUS : ℚ := 10
def STAR_SCORE : ℚ := 100
def BASE_PLANET_COUNT : ℕ := 3
def PLANET_COUNT_PER_LEVEL : ℕ := 2
def BASE_SCORE_THRESHOLD : ℚ := 1000
def SCORE_THRESHOLD_MULTIPLIER : ℚ := 3/2
def MAX_COLLISION_DISTANCE : ℚ := 200
def STATIC_STAR_COUNT : ℕ := 100

/-! ## Data model -/

/-- A game entity.  The JavaScript entities are plain records; the player
additionally carries `isMoving`, planets carry a visual-variant index
`ptype`, and stars have no velocity (defaulted to zero here, never read). -/
structure Entity where
  x : ℚ
  y : ℚ
  radius : ℚ
  dx : ℚ := 0
  dy : ℚ := 0
  ptype : ℤ := 0
  isMoving : Bool := false
deriving DecidableEq

/-- The four values of the global `gameState` variable. -/
inductive GState where
  | START
  | LEVEL_TRANSITION
  | PLAYING
  | GAME_OVER
deriving DecidableEq

/-- Ambient configuration: canvas size (`canvasWidth`, `canvasHeight`), the
global resolution `scale`, and the number of planet images
(`images.planets.length`). -/
structure Env where
  W : ℚ
  H : ℚ
  scale : ℚ
  nTypes : ℕ

/-- The mutable `game` object. -/
structure Game where
  player : Entity
  planets : List Entity
  stars : List Entity
  comets : List Entity
  collectableStars : List Entity
  score : ℚ
  currentLevel : ℕ
  gameState : GState
deriving DecidableEq

/-! ## Collision helpers (optimized variant) -/

/-- Squared distance between two entities (`getDistanceSquared`). -/
def getDistanceSquared (a b : Entity) : ℚ :=
  (a.x - b.x) * (a.x - b.x) + (a.y - b.y) * (a.y - b.y)

/-- Exact circle test (`areColliding`): squared distance strictly below the
squared radius sum. -/
def areColliding (a b : Entity) : Bool :=
  decide (getDistanceSquared a b < (a.radius + b.radius) * (a.radius + b.radius))

/-- AABB pre-filter (`areAABBColliding`): per-axis strict overlap of the
bounding squares with the radius as half-extent. -/
def areAABBColliding (a b : Entity) : Bool :=
  decide (|a.x - b.x| < a.radius + b.radius) && decide (|a.y - b.y| < a.radius + b.radius)

/-- Optimized test (`areCollidingOptimized`): return `false` when the AABB
pre-filter fails, otherwise fall through to the exact circle test. -/
def areCollidingOptimized (a b : Entity) : Bool :=
  if !areAABBColliding a b then false else areColliding a b

/-- Exact-distance test of the base game loop, which compares
`Math.hypot(dx, dy) < r₁ + r₂`.  Since `hypot` is the nonnegative square
root of `dx² + dy²`, the comparison is equivalent to
`0 < r₁ + r₂ ∧ dx² + dy² < (r₁ + r₂)²`, which is how it is encoded here. -/
def collides (a b : Entity) : Bool :=
  decide (0 < a.radius + b.radius) &&
    decide (getDistanceSquared a b < (a.radius + b.radius) * (a.radius + b.radius))

/-! ## SpatialGrid (uniform grid for proximity queries)

The JavaScript class stores buckets in a flat array indexed by
`cx + cy * cols`; both `insert` and `getNearbyEntities` iterate
`cx ∈ [max(0, ⌊(x−r)/cell⌋), min(cols−1, ⌊(x+r)/cell⌋)]` and the analogous
`cy` range.  The bucket array is modelled as a total function from the flat
index; `insert` appends the entity to the bucket of every index produced by
that double loop. -/

structure SpatialGrid where
  cols : ℤ
  rows : ℤ
  cellSize : ℚ
  grid : ℤ → List Entity

/-- Constructor of the class: `cols = ⌈width / cellSize⌉`,
`rows = ⌈height / cellSize⌉`, all buckets empty (`clear`). -/
def mkSpatialGrid (width height cellSize : ℚ) : SpatialGrid :=
  { cols := ⌈width / cellSize⌉
    rows := ⌈height / cellSize⌉
    cellSize := cellSize
    grid := fun _ => [] }

/-- Integer interval `[a, b]` as a list, the loop range `for (i = a; i <= b; i++)`. -/
def intRange (a b : ℤ) : List ℤ :=
  (List.range (b + 1 - a).toNat).map (fun (k : ℕ) => a + (k : ℤ))

def SpatialGrid.minCellX (g : SpatialGrid) (e : Entity) : ℤ :=
  max 0 ⌊(e.x - e.radius) / g.cellSize⌋

def SpatialGrid.maxCellX (g : SpatialGrid) (e : Entity) : ℤ :=
  min (g.cols - 1) ⌊(e.x + e.radius) / g.cellSize⌋

def SpatialGrid.minCellY (g : SpatialGrid) (e : Entity) : ℤ :=
  max 0 ⌊(e.y - e.radius) / g.cellSize⌋

def SpatialGrid.maxCellY (g : SpatialGrid) (e : Entity) : ℤ :=
  min (g.rows - 1) ⌊(e.y + e.radius) / g.cellSize⌋

/-- Flat indices of every cell the entity's bounding square overlaps,
clipped to the grid bounds: the double loop shared by `insert` and
`getNearbyEntities`. -/
def SpatialGrid.cellIndices (g : SpatialGrid) (e : Entity) : List ℤ :=
  (intRange (g.minCellX e) (g.maxCellX e)).flatMap
    (fun cx => (intRange (g.minCellY e) (g.maxCellY e)).map (fun cy => cx + cy * g.cols))

/-- Method `insert`: push the entity into the bucket of every overlapped cell. -/
def SpatialGrid.insert (g : SpatialGrid) (e : Entity) : SpatialGrid :=
  { g with grid := fun i => if i ∈ g.cellIndices e then g.grid i ++ [e] else g.grid i }

/-- Method `getNearbyEntities`: the deduplicated union (a JavaScript `Set`)
of the buckets of every cell the query entity's bounding square overlaps. -/
def SpatialGrid.getNearbyEntities (g : SpatialGrid) (e : Entity) : List Entity :=
  ((g.cellIndices e).flatMap g.grid).dedup

/-- The per-pass rebuild in `updateSpatialGrid`: insert a whole collection. -/
def buildGrid (g : SpatialGrid) (es : List Entity) : SpatialGrid :=
  es.foldl SpatialGrid.insert g

/-- Function `checkPlayerCollisionWithDangerousEntities`: first optimized hit
triggers game over and returns `true`. -/
def checkPlayerCollisionWithDangerousEntities (player : Entity) (entities : List Entity) : Bool :=
  entities.any (fun e => areCollidingOptimized player e)

/-- Function `checkPlayerCollisionWithDangerousEntitiesOptimized`: fall back
to the plain scan for an empty collection; otherwise filter the spatial
grid's candidates down to members of the collection within the maximum
collision distance, and report the first optimized hit. -/
def checkPlayerCollisionWithDangerousEntitiesOptimized (scale : ℚ) (grid : SpatialGrid)
    (player : Entity) (entities : List Entity) : Bool :=
  if entities = [] then checkPlayerCollisionWithDangerousEntities player entities
  else
    ((grid.getNearbyEntities player).filter
      (fun e => decide (e ∈ entities) &&
        decide (getDistanceSquared player e <
          (MAX_COLLISION_DISTANCE * scale) * (MAX_COLLISION_DISTANCE * scale)))).any
      (fun e => areCollidingOptimized player e)

/-! ## Entity motion -/

/-- Advance an entity by its velocity (`c.x += c.dx; c.y += c.dy`). -/
def advanceEntity (e : Entity) : Entity :=
  { e with x := e.x + e.dx, y := e.y + e.dy }

/-- Off-screen test of `updateComets` (and helper `isOffScreen`): strictly
outside `[−radius, bound + radius]` on either axis. -/
def isOffScreen (W H : ℚ) (e : Entity) : Bool :=
  decide (e.x < -e.radius) || decide (W + e.radius < e.x) ||
    decide (e.y < -e.radius) || decide (H + e.radius < e.y)

/-- Semantics of `Array.prototype.forEach` over indices `0 … len−1` where the
callback may mutate the array in place: the length is read once up front,
and an index at or beyond the current length is skipped (which is exactly
what happens in JavaScript after a `splice` shrinks the array). -/
def forEachIdx {α : Type} (f : α → ℕ → α) : ℕ → ℕ → α → α
  | _, 0, s => s
  | k, n+1, s => forEachIdx f (k+1) n (f s k)

/-- One callback step of `updateComets`: advance comet `k` in place, then
`splice(k, 1)` it out when off-screen. -/
def cometStep (W H : ℚ) (cs : List Entity) (k : ℕ) : List Entity :=
  if h : k < cs.length then
    let c' := advanceEntity (cs.get ⟨k, h⟩)
    let cs' := cs.set k c'
    if isOffScreen W H c' then cs'.eraseIdx k else cs'
  else cs

/-- Function `updateComets`: `forEach` over the comet array with in-place
advance and off-screen removal. -/
def updateComets (W H : ℚ) (cs : List Entity) : List Entity :=
  forEachIdx (cometStep W H) 0 cs.length cs

/-- Wall bounce of `updatePlanets` (helper `updateEntityWithBounce`): move,
then negate a velocity component whose position left `[radius, bound − radius]`. -/
def updateEntityWithBounce (W H : ℚ) (p : Entity) : Entity :=
  let p' := advanceEntity p
  { p' with
    dx := if p'.x < p'.radius ∨ W - p'.radius < p'.x then -p'.dx else p'.dx
    dy := if p'.y < p'.radius ∨ H - p'.radius < p'.y then -p'.dy else p'.dy }

/-- Function `updatePlanets`. -/
def updatePlanets (W H : ℚ) (ps : List Entity) : List Entity :=
  ps.map (updateEntityWithBounce W H)

/-! ## Gravity and the player step -/

/-- Squared distance from the player to a planet, `dx*dx + dy*dy` with
`dx = p.x − player.x`. -/
def distSqTo (pl p : Entity) : ℚ :=
  (p.x - pl.x) * (p.x - pl.x) + (p.y - pl.y) * (p.y - pl.y)

/-- The body of the gravity accumulation callback of `updatePlayer`: when
`distSq > 1` add `(dx, dy) * ((GRAVITY * p.radius / distSq) * scale)` to the
running totals, otherwise skip the planet. -/
def gravityStep (scale : ℚ) (pl : Entity) (acc : ℚ × ℚ) (p : Entity) : ℚ × ℚ :=
  let dx := p.x - pl.x
  let dy := p.y - pl.y
  let distSq := dx * dx + dy * dy
  if 1 < distSq then
    let force := GRAVITY * p.radius / distSq * scale
    (acc.1 + dx * force, acc.2 + dy * force)
  else acc

/-- The gravity accumulation loop of `updatePlayer` over all planets. -/
def totalGravity (scale : ℚ) (pl : Entity) (ps : List Entity) : ℚ × ℚ :=
  ps.foldl (gravityStep scale pl) (0, 0)

/-- Function `updatePlayer`: nothing happens unless `isMoving`; otherwise the
accumulated gravity is added to the velocity, the new velocity is added to
the position, and the score is incremented. -/
def updatePlayer (env : Env) (g : Game) : Game :=
  if g.player.isMoving then
    let tg := totalGravity env.scale g.player g.planets
    let dx' := g.player.dx + tg.1
    let dy' := g.player.dy + tg.2
    { g with
      player := { g.player with dx := dx', dy := dy', x := g.player.x + dx', y := g.player.y + dy' }
      score := g.score + 1 }
  else g

/-! ## Pickups and the collision sweep -/

/-- Function `spawnCollectableStars`: with probability `STAR_SPAWN_RATE`
append one star at a random position. -/
def spawnCollectableStars (env : Env) (rnd : ℕ → ℚ) (ix : ℕ) (g : Game) : Game × ℕ :=
  if rnd ix < STAR_SPAWN_RATE then
    ({ g with collectableStars := g.collectableStars ++
        [{ x := rnd (ix+1) * env.W, y := rnd (ix+2) * env.H, radius := STAR_RADIUS * env.scale }] },
      ix + 3)
  else (g, ix + 1)

/-- One callback step of the collectable-star sweep: on a hit add
`STAR_SCORE` and `splice(k, 1)` the star out. -/
def starStep (pl : Entity) (s : ℚ × List Entity) (k : ℕ) : ℚ × List Entity :=
  if h : k < s.2.length then
    if collides pl (s.2.get ⟨k, h⟩) then (s.1 + STAR_SCORE, s.2.eraseIdx k) else s
  else s

/-- The player-vs-collectable-stars `forEach` of `checkCollisions`, returning
the updated score and star list. -/
def collectStars (pl : Entity) (score : ℚ) (stars : List Entity) : ℚ × List Entity :=
  forEachIdx (starStep pl) 0 stars.length (score, stars)

/-- Function `gameOver`: enter the terminal state (the DOM writes it also
performs have no game-state content). -/
def gameOver (g : Game) : Game :=
  { g with gameState := GState.GAME_OVER }

/-- Function `checkCollisions`: planets first (first hit is game over and
ends the sweep), then comets likewise, then the collectable-star sweep, then
the unconditional wall check. -/
def checkCollisions (env : Env) (g : Game) : Game :=
  if g.planets.any (fun p => collides g.player p) then gameOver g
  else if g.comets.any (fun c => collides g.player c) then gameOver g
  else
    let sc := collectStars g.player g.score g.collectableStars
    let g' := { g with score := sc.1, collectableStars := sc.2 }
    if g.player.x < 0 ∨ env.W < g.player.x ∨ g.player.y < 0 ∨ env.H < g.player.y then gameOver g'
    else g'

/-! ## Level progression -/

/-- The score threshold of `checkLevelCompletion`:
`BASE_SCORE_THRESHOLD * SCORE_THRESHOLD_MULTIPLIER ^ (level − 1)`. -/
def requiredScoreFor (level : ℕ) : ℚ :=
  BASE_SCORE_THRESHOLD * SCORE_THRESHOLD_MULTIPLIER ^ (level - 1)

/-- One randomly generated planet of `generatePlanetsForLevel` (helper
`createRandomPlanet`): six `Math.random()` calls in source order
(x, y, radius, type, dx, dy), starting at stream position `j`. -/
def createRandomPlanet (env : Env) (rnd : ℕ → ℚ) (j : ℕ) : Entity :=
  { x := rnd j * env.W
    y := rnd (j+1) * env.H
    radius := (rnd (j+2) * (PLANET_MAX_RADIUS - PLANET_MIN_RADIUS) + PLANET_MIN_RADIUS) * env.scale
    ptype := ⌊rnd (j+3) * (env.nTypes : ℚ)⌋
    dx := (rnd (j+4) - 1/2) * (1/2) * env.scale
    dy := (rnd (j+5) - 1/2) * (1/2) * env.scale }

/-- The loop of `generatePlanetsForLevel` producing `n` random planets from
stream position `j`. -/
def randomPlanets (env : Env) (rnd : ℕ → ℚ) : ℕ → ℕ → List Entity
  | _, 0 => []
  | j, n+1 => createRandomPlanet env rnd j :: randomPlanets env rnd (j+6) n

/-- Function `generatePlanetsForLevel`: the planet array is reassigned to a
fresh list consisting of the fixed central planet (three `Math.random()`
calls: type, dx, dy) followed by
`BASE_PLANET_COUNT + (level − 1) * PLANET_COUNT_PER_LEVEL` random planets.
Returns the list and the advanced stream cursor. -/
def generatePlanetsForLevel (env : Env) (rnd : ℕ → ℚ) (ix : ℕ) (level : ℕ) :
    List Entity × ℕ :=
  let central : Entity :=
    { x := env.W / 2
      y := env.H / 2
      radius := 40 * env.scale
      ptype := ⌊rnd ix * (env.nTypes : ℚ)⌋
      dx := (rnd (ix+1) - 1/2) * (1/2) * env.scale
      dy := (rnd (ix+2) - 1/2) * (1/2) * env.scale }
  let n := BASE_PLANET_COUNT + (level - 1) * PLANET_COUNT_PER_LEVEL
  (central :: randomPlanets env rnd (ix+3) n, ix + 3 + 6 * n)

/-- Function `generateComet`: pick one of four edges
(`edge = ⌊Math.random() * 4⌋`), spawn on it with inward-biased velocity.
Four `Math.random()` calls in every branch.  Returns the comet and the
advanced stream cursor. -/
def generateComet (env : Env) (rnd : ℕ → ℚ) (ix : ℕ) : Entity × ℕ :=
  let speed := COMET_SPEED * env.scale
  let edge : ℤ := ⌊rnd ix * 4⌋
  let c : Entity :=
    if edge = 0 then
      { x := rnd (ix+1) * env.W, y := 0, radius := COMET_RADIUS * env.scale
        dx := (rnd (ix+2) - 1/2) * speed, dy := rnd (ix+3) * speed }
    else if edge = 1 then
      { x := env.W, y := rnd (ix+1) * env.H, radius := COMET_RADIUS * env.scale
        dx := -(rnd (ix+2) * speed), dy := (rnd (ix+3) - 1/2) * speed }
    else if edge = 2 then
      { x := rnd (ix+1) * env.W, y := env.H, radius := COMET_RADIUS * env.scale
        dx := (rnd (ix+2) - 1/2) * speed, dy := -(rnd (ix+3) * speed) }
    else
      { x := 0, y := rnd (ix+1) * env.H, radius := COMET_RADIUS * env.scale
        dx := rnd (ix+2) * speed, dy := (rnd (ix+3) - 1/2) * speed }
  (c, ix + 4)

/-- Function `startLevel`: enter `LEVEL_TRANSITION`, reset the player to the
spawn point with zero velocity and `isMoving = false`, reassign the planet
array via `generatePlanetsForLevel`, and when
`currentLevel ≥ COMET_START_LEVEL` push one generated comet onto the comet
array.  The `setTimeout` callback it schedules is modelled separately by
`levelTransitionTimerFired`. -/
def startLevel (env : Env) (rnd : ℕ → ℚ) (ix : ℕ) (g : Game) : Game × ℕ :=
  let player' := { g.player with x := env.W / 2, y := env.H / 3, dx := 0, dy := 0, isMoving := false }
  let ps := generatePlanetsForLevel env rnd ix g.currentLevel
  if COMET_START_LEVEL ≤ g.currentLevel then
    let cm := generateComet env rnd ps.2
    ({ g with
        gameState := GState.LEVEL_TRANSITION
        player := player'
        planets := ps.1
        comets := g.comets ++ [cm.1] }, cm.2)
  else
    ({ g with gameState := GState.LEVEL_TRANSITION, player := player', planets := ps.1 }, ps.2)

/-- The `setTimeout` callback scheduled by `startLevel`: after the delay it
enters `PLAYING` only when the state is still `LEVEL_TRANSITION`. -/
def levelTransitionTimerFired (g : Game) : Game :=
  if g.gameState = GState.LEVEL_TRANSITION then { g with gameState := GState.PLAYING } else g

/-- Function `checkLevelCompletion`: when the score has reached the
threshold, increment the level and run `startLevel`. -/
def checkLevelCompletion (env : Env) (rnd : ℕ → ℚ) (ix : ℕ) (g : Game) : Game × ℕ :=
  if requiredScoreFor g.currentLevel ≤ g.score then
    startLevel env rnd ix { g with currentLevel := g.currentLevel + 1 }
  else (g, ix)

/-- The background-star generation loop of `init` (three `Math.random()`
calls per star: x, y, radius). -/
def backgroundStars (env : Env) (rnd : ℕ → ℚ) : ℕ → ℕ → List Entity
  | _, 0 => []
  | j, n+1 =>
    { x := rnd j * env.W, y := rnd (j+1) * env.H, radius := (rnd (j+2) * 2 + 1) * env.scale } ::
      backgroundStars env rnd (j+3) n

/-- Function `init`: the full game reset — score 0, level 1, state `START`,
fresh player at the spawn point, all entity collections emptied, and
`STATIC_STAR_COUNT` background stars regenerated. -/
def initGame (env : Env) (rnd : ℕ → ℚ) (ix : ℕ) : Game × ℕ :=
  ({ player := { x := env.W / 2, y := env.H / 3, dx := 0, dy := 0
                 radius := PLAYER_RADIUS * env.scale, isMoving := false }
     planets := []
     stars := backgroundStars env rnd ix STATIC_STAR_COUNT
     comets := []
     collectableStars := []
     score := 0
     currentLevel := 1
     gameState := GState.START }, ix + 3 * STATIC_STAR_COUNT)

/-- Function `update`, the per-tick entry point: a no-op unless `PLAYING`;
otherwise planets, comets, player, star spawning, the collision sweep and
the level-completion check run in that order. -/
def update (env : Env) (rnd : ℕ → ℚ) (ix : ℕ) (g : Game) : Game × ℕ :=
  if g.gameState ≠ GState.PLAYING then (g, ix)
  else
    let g1 := { g with planets := updatePlanets env.W env.H g.planets }
    let g2 := { g1 with comets := updateComets env.W env.H g1.comets }
    let g3 := updatePlayer env g2
    let s4 := spawnCollectableStars env rnd ix g3
    let g5 := checkCollisions env s4.1
    checkLevelCompletion env rnd s4.2 g5

/-! ## Concrete inputs used to exercise the development -/

def cxEnv : Env := ⟨200, 200, 1, 1⟩

def constHalf : ℕ → ℚ := fun _ => 1/2

def cxPlanet : Entity := ⟨110, 100, 20, 0, 0, 0, false⟩

def cxGame5 : Game :=
  { player := ⟨100, 100, 20, 0, 0, 0, false⟩
    planets := [cxPlanet]
    stars := []
    comets := []
    collectableStars := []
    score := 1000
    currentLevel := 1
    gameState := GState.PLAYING }

def cxComet : Entity := ⟨40, 40, 15, 1, 1, 0, false⟩

def cxGame6 : Game :=
  { player := ⟨100, 100, 20, 0, 0, 0, false⟩
    planets := []
    stars := []
    comets := [cxComet]
    collectableStars := []
    score := 0
    currentLevel := 2
    gameState := GState.PLAYING }

/-! ## General lemmas about the embedded operations -/

theorem gravityStep_skip (scale : ℚ) (pl p : Entity) (acc : ℚ × ℚ)
    (h : distSqTo pl p ≤ 1) : gravityStep scale pl acc p = acc := by
  unfold gravityStep
  rw [if_neg]
  exact not_lt.mpr (by simpa [distSqTo] using h)

theorem gravityStep_hit (scale : ℚ) (pl p : Entity) (acc : ℚ × ℚ)
    (h : 1 < distSqTo pl p) :
    gravityStep scale pl acc p =
      (acc.1 + (p.x - pl.x) * (GRAVITY * p.radius / distSqTo pl p * scale),
       acc.2 + (p.y - pl.y) * (GRAVITY * p.radius / distSqTo pl p * scale)) := by
  unfold gravityStep distSqTo
  rw [if_pos (by simpa [distSqTo] using h)]

theorem updatePlayer_score (env : Env) (g : Game) :
    (updatePlayer env g).score = if g.player.isMoving then g.score + 1 else g.score := by
  by_cases h : g.player.isMoving <;> simp [updatePlayer, h]

theorem forEachIdx_zero {α : Type} (f : α → ℕ → α) (k : ℕ) (s : α) :
    forEachIdx f k 0 s = s := rfl

theorem forEachIdx_succ {α : Type} (f : α → ℕ → α) (k n : ℕ) (s : α) :
    forEachIdx f k (n+1) s = forEachIdx f (k+1) n (f s k) := rfl

theorem starStep_noHit (pl : Entity) (score : ℚ) (stars : List Entity) (k : ℕ)
    (h : ∀ st ∈ stars, collides pl st = false) :
    starStep pl (score, stars) k = (score, stars) := by
  unfold starStep
  split
  · next hk =>
      have hc : collides pl stars[k] = false := h _ (List.getElem_mem (by simpa using hk))
      simp [hc]
  · rfl

theorem forEachIdx_starStep_noHit (pl : Entity) (score : ℚ) (stars : List Entity)
    (h : ∀ st ∈ stars, collides pl st = false) :
    ∀ n k, forEachIdx (starStep pl) k n (score, stars) = (score, stars) := by
  intro n
  induction n with
  | zero => intro k; rfl
  | succ m ih =>
      intro k
      rw [forEachIdx_succ, starStep_noHit pl score stars k h, ih]

theorem collectStars_noHit (pl : Entity) (score : ℚ) (stars : List Entity)
    (h : ∀ st ∈ stars, collides pl st = false) :
    collectStars pl score stars = (score, stars) :=
  forEachIdx_starStep_noHit pl score stars h stars.length 0

theorem collectStars_singleton (pl : Entity) (score : ℚ) (s : Entity) :
    collectStars pl score [s] =
      if collides pl s then (score + STAR_SCORE, []) else (score, [s]) := by
  have h1 : collectStars pl score [s] = starStep pl (score, [s]) 0 := rfl
  rw [h1]
  unfold starStep
  by_cases hc : collides pl s <;> simp [hc]

theorem cometStep_noRemove (W H : ℚ) (cs : List Entity) (k : ℕ) (hk : k < cs.length)
    (hoff : isOffScreen W H (advanceEntity (cs.get ⟨k, hk⟩)) = false) :
    cometStep W H cs k = cs.set k (advanceEntity (cs.get ⟨k, hk⟩)) := by
  unfold cometStep
  rw [dif_pos hk]
  have hoff2 : isOffScreen W H (advanceEntity cs[k]) = false := hoff
  simp [hoff2]

theorem forEachIdx_cometStep_advance (W H : ℚ) :
    ∀ (n k : ℕ) (cs : List Entity), cs.length = k + n →
      (∀ (i : ℕ) (h : i < cs.length), k ≤ i →
        isOffScreen W H (advanceEntity (cs.get ⟨i, h⟩)) = false) →
      forEachIdx (cometStep W H) k n cs = cs.take k ++ (cs.drop k).map advanceEntity := by
  intro n
  induction n with
  | zero =>
      intro k cs hlen hoff
      rw [forEachIdx_zero]
      have h1 : cs.take k = cs := List.take_of_length_le (by omega)
      have h2 : cs.drop k = [] := List.drop_eq_nil_of_le (by omega)
      simp [h1, h2]
  | succ m ih =>
      intro k cs hlen hoff
      have hk : k < cs.length := by omega
      rw [forEachIdx_succ, cometStep_noRemove W H cs k hk (hoff k hk le_rfl)]
      have hlen' : (cs.set k (advanceEntity (cs.get ⟨k, hk⟩))).length = (k+1) + m := by
        simp [List.length_set]; omega
      have hoff' : ∀ (i : ℕ) (h : i < (cs.set k (advanceEntity (cs.get ⟨k, hk⟩))).length),
          k+1 ≤ i →
          isOffScreen W H
            (advanceEntity ((cs.set k (advanceEntity (cs.get ⟨k, hk⟩))).get ⟨i, h⟩)) = false := by
        intro i h hi
        have hilen : i < cs.length := by simpa using h
        have hget : (cs.set k (advanceEntity (cs.get ⟨k, hk⟩))).get ⟨i, h⟩ = cs.get ⟨i, hilen⟩ := by
          simp [List.getElem_set_ne (by omega : k ≠ i)]
        rw [hget]
        exact hoff i hilen (by omega)
      rw [ih (k+1) _ hlen' hoff']
      rw [List.set_eq_take_cons_drop _ hk]
      have htk : (cs.take k).length = k := by simp [List.length_take]; omega
      rw [List.take_append_eq_append_take, List.drop_append_eq_append_drop, htk]
      have h1 : k + 1 - k = 1 := by omega
      rw [h1]
      have h2 : (cs.take k).take (k+1) = cs.take k := List.take_of_length_le (by omega)
      rw [h2]
      have h3 : (cs.take k).drop (k+1) = [] := List.drop_eq_nil_of_le (by omega)
      rw [h3]
      have h4 : cs.drop k = cs.get ⟨k, hk⟩ :: cs.drop (k+1) := by
        rw [List.drop_eq_getElem_cons hk]
        simp
      rw [h4]
      simp
      rw [List.drop_eq_getElem_cons (show k < (List.map advanceEntity cs).length by simpa using hk)]
      simp

theorem updateComets_map (W H : ℚ) (cs : List Entity)
    (h : ∀ c ∈ cs, isOffScreen W H (advanceEntity c) = false) :
    updateComets W H cs = cs.map advanceEntity := by
  unfold updateComets
  have hmain := forEachIdx_cometStep_advance W H cs.length 0 cs (by omega)
    (fun i hi _ => h _ (List.get_mem _ _ _))
  simpa using hmain

theorem updateComets_singleton (W H : ℚ) (c : Entity) :
    updateComets W H [c] =
      if isOffScreen W H (advanceEntity c) then [] else [advanceEntity c] := by
  have h1 : updateComets W H [c] = cometStep W H [c] 0 := rfl
  rw [h1]
  unfold cometStep
  by_cases hoff : isOffScreen W H (advanceEntity c) <;> simp [hoff]

/-! ## Spatial grid lemmas -/

theorem mem_intRange {a b i : ℤ} : i ∈ intRange a b ↔ a ≤ i ∧ i ≤ b := by
  unfold intRange
  simp only [List.mem_map, List.mem_range]
  constructor
  · rintro ⟨k, hk, rfl⟩
    omega
  · rintro ⟨h1, h2⟩
    exact ⟨(i - a).toNat, by omega, by omega⟩

theorem cellIndices_mem_of (g : SpatialGrid) (e : Entity) (cx cy : ℤ)
    (hx1 : g.minCellX e ≤ cx) (hx2 : cx ≤ g.maxCellX e)
    (hy1 : g.minCellY e ≤ cy) (hy2 : cy ≤ g.maxCellY e) :
    cx + cy * g.cols ∈ g.cellIndices e := by
  simp only [SpatialGrid.cellIndices, List.mem_flatMap, List.mem_map]
  exact ⟨cx, mem_intRange.mpr ⟨hx1, hx2⟩, cy, mem_intRange.mpr ⟨hy1, hy2⟩, rfl⟩

theorem ranges_of_ne_nil (g : SpatialGrid) (e : Entity) (h : g.cellIndices e ≠ []) :
    g.minCellX e ≤ g.maxCellX e ∧ g.minCellY e ≤ g.maxCellY e := by
  obtain ⟨i, hi⟩ := List.exists_mem_of_ne_nil _ h
  simp only [SpatialGrid.cellIndices, List.mem_flatMap, List.mem_map] at hi
  obtain ⟨cx, hcx, cy, hcy, _⟩ := hi
  obtain ⟨h1, h2⟩ := mem_intRange.mp hcx
  obtain ⟨h3, h4⟩ := mem_intRange.mp hcy
  exact ⟨le_trans h1 h2, le_trans h3 h4⟩

theorem cellIndices_insert (g : SpatialGrid) (f e : Entity) :
    (g.insert f).cellIndices e = g.cellIndices e := rfl

theorem cellIndices_buildGrid (g : SpatialGrid) (es : List Entity) (e : Entity) :
    (buildGrid g es).cellIndices e = g.cellIndices e := by
  induction es generalizing g with
  | nil => rfl
  | cons a tl ih =>
      rw [show buildGrid g (a :: tl) = buildGrid (g.insert a) tl from rfl, ih]
      exact cellIndices_insert g a e

theorem mem_grid_insert_self (g : SpatialGrid) (e : Entity) (i : ℤ)
    (hi : i ∈ g.cellIndices e) : e ∈ (g.insert e).grid i := by
  simp [SpatialGrid.insert, hi]

theorem mem_grid_insert_mono (g : SpatialGrid) (f x : Entity) (i : ℤ)
    (hx : x ∈ g.grid i) : x ∈ (g.insert f).grid i := by
  by_cases h : i ∈ g.cellIndices f <;> simp [SpatialGrid.insert, h, hx]

theorem mem_grid_buildGrid_mono (g : SpatialGrid) (es : List Entity) (x : Entity) (i : ℤ)
    (hx : x ∈ g.grid i) : x ∈ (buildGrid g es).grid i := by
  induction es generalizing g with
  | nil => exact hx
  | cons a tl ih => exact ih (g.insert a) (mem_grid_insert_mono g a x i hx)

theorem mem_grid_buildGrid (g : SpatialGrid) (es : List Entity) (F : Entity) (i : ℤ)
    (hF : F ∈ es) (hi : i ∈ g.cellIndices F) : F ∈ (buildGrid g es).grid i := by
  induction es generalizing g with
  | nil => cases hF
  | cons a tl ih =>
      rcases List.mem_cons.mp hF with rfl | hmem
      · exact mem_grid_buildGrid_mono (g.insert F) tl F i (mem_grid_insert_self g F i hi)
      · exact ih (g.insert a) hmem hi

theorem mem_getNearbyEntities (g : SpatialGrid) (E F : Entity) (i : ℤ)
    (hi : i ∈ g.cellIndices E) (hF : F ∈ g.grid i) : F ∈ g.getNearbyEntities E := by
  simp only [SpatialGrid.getNearbyEntities, List.mem_dedup, List.mem_flatMap]
  exact ⟨i, hi, hF⟩

theorem shared_cell (g : SpatialGrid) (E F : Entity) (hcs : 0 < g.cellSize)
    (hE : g.cellIndices E ≠ []) (hF : g.cellIndices F ≠ [])
    (hx : |E.x - F.x| ≤ E.radius + F.radius)
    (hy : |E.y - F.y| ≤ E.radius + F.radius) :
    ∃ i, i ∈ g.cellIndices E ∧ i ∈ g.cellIndices F := by
  obtain ⟨hEx, hEy⟩ := ranges_of_ne_nil g E hE
  obtain ⟨hFx, hFy⟩ := ranges_of_ne_nil g F hF
  have hax := abs_le.mp hx
  have hay := abs_le.mp hy
  have hfx1 : ⌊(F.x - F.radius) / g.cellSize⌋ ≤ ⌊(E.x + E.radius) / g.cellSize⌋ :=
    Int.floor_le_floor ((div_le_div_iff_of_pos_right hcs).mpr (by linarith [hax.1, hax.2]))
  have hfx2 : ⌊(E.x - E.radius) / g.cellSize⌋ ≤ ⌊(F.x + F.radius) / g.cellSize⌋ :=
    Int.floor_le_floor ((div_le_div_iff_of_pos_right hcs).mpr (by linarith [hax.1, hax.2]))
  have hfy1 : ⌊(F.y - F.radius) / g.cellSize⌋ ≤ ⌊(E.y + E.radius) / g.cellSize⌋ :=
    Int.floor_le_floor ((div_le_div_iff_of_pos_right hcs).mpr (by linarith [hay.1, hay.2]))
  have hfy2 : ⌊(E.y - E.radius) / g.cellSize⌋ ≤ ⌊(F.y + F.radius) / g.cellSize⌋ :=
    Int.floor_le_floor ((div_le_div_iff_of_pos_right hcs).mpr (by linarith [hay.1, hay.2]))
  simp only [SpatialGrid.minCellX, SpatialGrid.maxCellX, SpatialGrid.minCellY,
    SpatialGrid.maxCellY] at hEx hEy hFx hFy
  refine ⟨max (g.minCellX E) (g.minCellX F) + max (g.minCellY E) (g.minCellY F) * g.cols,
    cellIndices_mem_of g E _ _ ?_ ?_ ?_ ?_, cellIndices_mem_of g F _ _ ?_ ?_ ?_ ?_⟩ <;>
    simp only [SpatialGrid.minCellX, SpatialGrid.maxCellX, SpatialGrid.minCellY,
      SpatialGrid.maxCellY] <;>
    omega

/-! ## Claim theorems -/

/-- C1: in the player-update step, a planet's gravity contribution is
skipped exactly when the squared distance `d²` to the player is at most 1
(so the division by `d²` is only ever performed with `d² > 1`); a planet
with `d² > 1` contributes exactly `Δ · (GRAVITY · p.radius / d²) · scale`
to the accumulated acceleration; and the accumulated acceleration is added
to the velocity, which is then added to the position (semi-implicit Euler). -/
theorem gravity_floor_and_integration (env : Env) (pl p : Entity)
    (ps₁ ps₂ : List Entity) (g : Game) (hmov : g.player.isMoving = true) :
    (distSqTo pl p ≤ 1 →
      totalGravity env.scale pl (ps₁ ++ p :: ps₂) = totalGravity env.scale pl (ps₁ ++ ps₂)) ∧
    (1 < distSqTo pl p →
      totalGravity env.scale pl (ps₁ ++ [p]) =
        ((totalGravity env.scale pl ps₁).1 +
            (p.x - pl.x) * (GRAVITY * p.radius / distSqTo pl p * env.scale),
          (totalGravity env.scale pl ps₁).2 +
            (p.y - pl.y) * (GRAVITY * p.radius / distSqTo pl p * env.scale))) ∧
    ((updatePlayer env g).player.dx = g.player.dx + (totalGravity env.scale g.player g.planets).1 ∧
      (updatePlayer env g).player.dy = g.player.dy + (totalGravity env.scale g.player g.planets).2 ∧
      (updatePlayer env g).player.x = g.player.x + (updatePlayer env g).player.dx ∧
      (updatePlayer env g).player.y = g.player.y + (updatePlayer env g).player.dy) := by
  refine ⟨?_, ?_, ?_⟩
  · intro h
    unfold totalGravity
    rw [List.foldl_append, List.foldl_append, List.foldl_cons,
      gravityStep_skip env.scale pl p _ h]
  · intro h
    unfold totalGravity
    rw [List.foldl_append, List.foldl_cons, List.foldl_nil,
      gravityStep_hit env.scale pl p _ h]
  · simp [updatePlayer, hmov]

/-- Witness for C1 at a planet sitting at squared distance exactly 1 from
the player (skipped) and with the player marked as moving. -/
theorem gravity_floor_and_integration_witness :
    totalGravity cxEnv.scale ⟨0, 0, 20, 0, 0, 0, true⟩ [⟨0, 1, 30, 0, 0, 0, false⟩] =
      totalGravity cxEnv.scale ⟨0, 0, 20, 0, 0, 0, true⟩ [] :=
  (gravity_floor_and_integration cxEnv ⟨0, 0, 20, 0, 0, 0, true⟩ ⟨0, 1, 30, 0, 0, 0, false⟩
    [] []
    { player := ⟨0, 0, 20, 0, 0, 0, true⟩, planets := [], stars := [], comets := []
      collectableStars := [], score := 0, currentLevel := 1, gameState := GState.PLAYING }
    rfl).1 (by norm_num [distSqTo])

/-- C3: the AABB-prefiltered collision test agrees with the exact
squared-distance test on every pair of circular entities (entities whose
radii are nonnegative, as all entities of the game are). -/
theorem areCollidingOptimized_agrees (a b : Entity) (h : 0 ≤ a.radius + b.radius) :
    areCollidingOptimized a b = areColliding a b := by
  by_cases hA : areAABBColliding a b
  · simp [areCollidingOptimized, hA]
  · have hx : ¬ (|a.x - b.x| < a.radius + b.radius) ∨
        ¬ (|a.y - b.y| < a.radius + b.radius) := by
      by_contra hc
      push_neg at hc
      exact hA (by simp [areAABBColliding, hc.1, hc.2])
    have hfar : ¬ (getDistanceSquared a b < (a.radius + b.radius) * (a.radius + b.radius)) := by
      unfold getDistanceSquared
      rcases hx with h1 | h1 <;> push_neg at h1
      · have h2 : (a.radius + b.radius) * (a.radius + b.radius) ≤ |a.x - b.x| * |a.x - b.x| :=
          mul_le_mul h1 h1 h (abs_nonneg _)
        rw [abs_mul_abs_self] at h2
        nlinarith [mul_self_nonneg (a.y - b.y)]
      · have h2 : (a.radius + b.radius) * (a.radius + b.radius) ≤ |a.y - b.y| * |a.y - b.y| :=
          mul_le_mul h1 h1 h (abs_nonneg _)
        rw [abs_mul_abs_self] at h2
        nlinarith [mul_self_nonneg (a.x - b.x)]
    simp [areCollidingOptimized, hA, areColliding, hfar]

/-- Witness for C3 on a concrete far-apart pair. -/
theorem areCollidingOptimized_agrees_witness :
    areCollidingOptimized ⟨0, 0, 10, 0, 0, 0, false⟩ ⟨25, 0, 10, 0, 0, 0, false⟩ =
      areColliding ⟨0, 0, 10, 0, 0, 0, false⟩ ⟨25, 0, 10, 0, 0, 0, false⟩ :=
  areCollidingOptimized_agrees ⟨0, 0, 10, 0, 0, 0, false⟩ ⟨25, 0, 10, 0, 0, 0, false⟩
    (by norm_num)

/-- C4 (amended): a single comet — and, more generally, every comet the
in-place `forEach` actually visits — is removed after advancing exactly when
its advanced position is strictly outside `[−radius, bound + radius]` on
some axis (so a comet exactly at `x = −radius` is retained); when no comet
is removed, the tick advances every comet by its velocity.  The unrestricted
per-comet claim fails because `splice` inside `forEach` skips the element
following a removed comet (see the counterexample). -/
theorem updateComets_culling (W H : ℚ) (c : Entity) :
    (updateComets W H [c] =
      if isOffScreen W H (advanceEntity c) then [] else [advanceEntity c]) ∧
    ∀ cs : List Entity, (∀ c' ∈ cs, isOffScreen W H (advanceEntity c') = false) →
      updateComets W H cs = cs.map advanceEntity :=
  ⟨updateComets_singleton W H c, fun cs h => updateComets_map W H cs h⟩

/-- Witness for C4: a retained single comet is advanced in place. -/
theorem updateComets_culling_witness :
    updateComets 100 100 [⟨5, 5, 1, 1, 0, 0, false⟩] =
      List.map advanceEntity [⟨5, 5, 1, 1, 0, 0, false⟩] :=
  (updateComets_culling 100 100 ⟨5, 5, 1, 1, 0, 0, false⟩).2 _
    (by
      intro c' hc'
      rw [List.mem_singleton] at hc'
      subst hc'
      norm_num [isOffScreen, advanceEntity])

/-- Counterexample for C4 as stated: with two comets both far off-screen,
one tick removes only the first; the second (whose advanced position is
outside the bound on the x axis) survives the tick because the `splice`
shifts it into the just-visited slot. -/
theorem updateComets_skips_after_splice :
    updateComets 100 100 [⟨-1000, 50, 15, 0, 0, 0, false⟩, ⟨-1000, 60, 15, 0, 0, 0, false⟩] =
        [⟨-1000, 60, 15, 0, 0, 0, false⟩] ∧
      isOffScreen 100 100 (advanceEntity ⟨-1000, 60, 15, 0, 0, 0, false⟩) = true := by
  constructor
  · norm_num [updateComets, forEachIdx, cometStep, advanceEntity, isOffScreen]
  · norm_num [isOffScreen, advanceEntity]

/-- C8 (amended): with exactly one overlapping star, one sweep adds exactly
the star reward of 100 and removes exactly that star, and a sweep over stars
none of which overlap the player changes nothing; but simultaneously
overlapping stars are not all guaranteed to be collected in one tick,
because the `splice` inside `forEach` skips the element following a
collected star (see the counterexample). -/
theorem collectStars_pickup (pl : Entity) (score : ℚ) (s : Entity) :
    (collectStars pl score [s] =
      if collides pl s then (score + 100, []) else (score, [s])) ∧
    ∀ stars : List Entity, (∀ st ∈ stars, collides pl st = false) →
      collectStars pl score stars = (score, stars) :=
  ⟨collectStars_singleton pl score s, fun stars h => collectStars_noHit pl score stars h⟩

/-- Witness for C8: one overlapping star yields exactly +100 and an empty
collection; one far-away star leaves the sweep state unchanged. -/
theorem collectStars_pickup_witness :
    collectStars ⟨50, 50, 20, 0, 0, 0, false⟩ 0 [⟨50, 50, 10, 0, 0, 0, false⟩] = (100, []) ∧
      collectStars ⟨50, 50, 20, 0, 0, 0, false⟩ 0 [⟨500, 500, 10, 0, 0, 0, false⟩] =
        (0, [⟨500, 500, 10, 0, 0, 0, false⟩]) := by
  constructor
  · have h := (collectStars_pickup ⟨50, 50, 20, 0, 0, 0, false⟩ 0 ⟨50, 50, 10, 0, 0, 0, false⟩).1
    norm_num [collides, getDistanceSquared] at h
    exact h
  · exact (collectStars_pickup ⟨50, 50, 20, 0, 0, 0, false⟩ 0 ⟨50, 50, 10, 0, 0, 0, false⟩).2 _
      (by
        intro st hst
        rw [List.mem_singleton] at hst
        subst hst
        norm_num [collides, getDistanceSquared])

/-- Counterexample for C8 as stated: two identical stars both overlapping
the player; one sweep adds 100 (not 2 × 100) and removes one star (not
both), since the `splice` shifts the second star into the visited slot. -/
theorem collectStars_skips_after_splice :
    collectStars ⟨50, 50, 20, 0, 0, 0, false⟩ 0
        [⟨50, 50, 10, 0, 0, 0, false⟩, ⟨50, 50, 10, 0, 0, 0, false⟩] =
        (100, [⟨50, 50, 10, 0, 0, 0, false⟩]) ∧
      collides ⟨50, 50, 20, 0, 0, 0, false⟩ ⟨50, 50, 10, 0, 0, 0, false⟩ = true := by
  constructor
  · norm_num [collectStars, forEachIdx, starStep, collides, getDistanceSquared, STAR_SCORE]
  · norm_num [collides, getDistanceSquared]

/-- C6 (amended): at every level start the planet collection is replaced
wholesale by the freshly generated list (independently of the previous
planets), while the comet collection is NOT rebuilt: the previous comets
are all retained, and exactly one new comet is appended when the level has
reached `COMET_START_LEVEL`. -/
theorem startLevel_rebuilds (env : Env) (rnd : ℕ → ℚ) (ix : ℕ) (g : Game) :
    (startLevel env rnd ix g).1.planets = (generatePlanetsForLevel env rnd ix g.currentLevel).1 ∧
    (startLevel env rnd ix g).1.comets =
      (if COMET_START_LEVEL ≤ g.currentLevel then
        g.comets ++ [(generateComet env rnd (generatePlanetsForLevel env rnd ix g.currentLevel).2).1]
      else g.comets) := by
  by_cases h : COMET_START_LEVEL ≤ g.currentLevel <;> simp [startLevel, h]

/-- Counterexample for C6 as stated: a comet alive before a level start is
still in the comet collection afterwards — the comet list is not rebuilt
wholesale. -/
theorem startLevel_keeps_old_comets :
    ((startLevel cxEnv constHalf 0 cxGame6).1).comets = [cxComet] := by
  norm_num [startLevel, cxGame6, COMET_START_LEVEL]

/-- C7: the delayed transition scheduled by `startLevel` is guarded: firing
the timer after a full game reset leaves the fresh `START` state (and more
generally any state other than `LEVEL_TRANSITION`) untouched, while firing
it on the `LEVEL_TRANSITION` state produced by `startLevel` enters
`PLAYING`. -/
theorem levelTransitionTimer_guarded :
    (∀ (env : Env) (rnd : ℕ → ℚ) (ix : ℕ),
      levelTransitionTimerFired (initGame env rnd ix).1 = (initGame env rnd ix).1) ∧
    (∀ g : Game, g.gameState ≠ GState.LEVEL_TRANSITION → levelTransitionTimerFired g = g) ∧
    (∀ (env : Env) (rnd : ℕ → ℚ) (ix : ℕ) (g : Game),
      (levelTransitionTimerFired (startLevel env rnd ix g).1).gameState = GState.PLAYING) := by
  refine ⟨?_, ?_, ?_⟩
  · intro env rnd ix
    simp [levelTransitionTimerFired, initGame]
  · intro g h
    simp [levelTransitionTimerFired, h]
  · intro env rnd ix g
    by_cases h : COMET_START_LEVEL ≤ g.currentLevel <;>
      simp [startLevel, levelTransitionTimerFired, h]

/-- Witness for C7: a stale timer fired on a game-over state is a no-op. -/
theorem levelTransitionTimer_guarded_witness :
    levelTransitionTimerFired cxGame6 = cxGame6 :=
  levelTransitionTimer_guarded.2.1 cxGame6 (by simp [cxGame6])

theorem randomPlanets_length (env : Env) (rnd : ℕ → ℚ) :
    ∀ (n j : ℕ), (randomPlanets env rnd j n).length = n := by
  intro n
  induction n with
  | zero => intro j; rfl
  | succ m ih => intro j; simp [randomPlanets, ih]

/-- C9: the required score threshold is
`BASE_SCORE_THRESHOLD · SCORE_THRESHOLD_MULTIPLIER ^ (L−1)` and strictly
increases with the level, and the planet list generated for level `L` has
exactly `1 + BASE_PLANET_COUNT + (L−1) · PLANET_COUNT_PER_LEVEL` entries,
a count monotone in the level. -/
theorem difficulty_monotone (L : ℕ) (hL : 1 ≤ L) :
    requiredScoreFor L < requiredScoreFor (L + 1) ∧
    requiredScoreFor L = BASE_SCORE_THRESHOLD * SCORE_THRESHOLD_MULTIPLIER ^ (L - 1) ∧
    (∀ (env : Env) (rnd : ℕ → ℚ) (ix : ℕ),
      ((generatePlanetsForLevel env rnd ix L).1).length =
        1 + (BASE_PLANET_COUNT + (L - 1) * PLANET_COUNT_PER_LEVEL)) ∧
    (∀ (env env' : Env) (rnd rnd' : ℕ → ℚ) (ix ix' : ℕ),
      ((generatePlanetsForLevel env rnd ix L).1).length ≤
        ((generatePlanetsForLevel env' rnd' ix' (L + 1)).1).length) := by
  have hlen : ∀ (env : Env) (rnd : ℕ → ℚ) (ix : ℕ) (lvl : ℕ),
      ((generatePlanetsForLevel env rnd ix lvl).1).length =
        1 + (BASE_PLANET_COUNT + (lvl - 1) * PLANET_COUNT_PER_LEVEL) := by
    intro env rnd ix lvl
    simp [generatePlanetsForLevel, randomPlanets_length]
    omega
  refine ⟨?_, rfl, fun env rnd ix => hlen env rnd ix L, ?_⟩
  · unfold requiredScoreFor BASE_SCORE_THRESHOLD SCORE_THRESHOLD_MULTIPLIER
    have he : L + 1 - 1 = L := by omega
    rw [he]
    have hp : ((3:ℚ)/2) ^ (L - 1) < ((3:ℚ)/2) ^ L :=
      pow_lt_pow_right₀ (by norm_num) (by omega)
    nlinarith [pow_pos (show (0:ℚ) < 3/2 by norm_num) (L - 1)]
  · intro env env' rnd rnd' ix ix'
    rw [hlen, hlen]
    have hmono : (L - 1) * PLANET_COUNT_PER_LEVEL ≤ (L + 1 - 1) * PLANET_COUNT_PER_LEVEL :=
      Nat.mul_le_mul_right _ (by omega)
    omega

/-- Witness for C9 at level 1. -/
theorem difficulty_monotone_witness :
    requiredScoreFor 1 < requiredScoreFor 2 :=
  (difficulty_monotone 1 le_rfl).1

/-- C10: the movement step (`updatePlayer`) increments the score by exactly
1 when `isMoving` is set and leaves it unchanged otherwise. -/
theorem updatePlayer_score_increment (env : Env) (g : Game) :
    (updatePlayer env g).score = if g.player.isMoving then g.score + 1 else g.score :=
  updatePlayer_score env g

theorem areCollidingOptimized_true_of (a b : Entity)
    (h : areCollidingOptimized a b = true) : areColliding a b = true := by
  unfold areCollidingOptimized at h
  by_cases hA : areAABBColliding a b
  · simpa [hA] using h
  · simp [hA] at h

/-- C2: whenever the bounding squares of two entities overlap and both
entities are registered in at least one grid cell (the meaning of being
inserted into the grid — an entity wholly outside the grid bounds receives
no cell registrations), the spatial query for one returns the other: the
index has no false negatives.  Moreover the dangerous-entity sweep reports a
collision only when the exact circle test holds for some entity of the
scanned collection, so every false positive of the index is rejected before
a collision is reported. -/
theorem grid_query_no_false_negatives (g : SpatialGrid) (es : List Entity) (E F : Entity)
    (hcs : 0 < g.cellSize) (hF : F ∈ es)
    (hEcells : g.cellIndices E ≠ []) (hFcells : g.cellIndices F ≠ [])
    (hx : |E.x - F.x| ≤ E.radius + F.radius)
    (hy : |E.y - F.y| ≤ E.radius + F.radius) :
    F ∈ (buildGrid g es).getNearbyEntities E ∧
    ∀ (scale : ℚ) (g' : SpatialGrid) (pl : Entity) (ds : List Entity),
      checkPlayerCollisionWithDangerousEntitiesOptimized scale g' pl ds = true →
      ∃ e ∈ ds, areColliding pl e = true := by
  constructor
  · obtain ⟨i, hiE, hiF⟩ := shared_cell g E F hcs hEcells hFcells hx hy
    have hgrid : F ∈ (buildGrid g es).grid i := mem_grid_buildGrid g es F i hF hiF
    have hiE2 : i ∈ (buildGrid g es).cellIndices E := by
      rw [cellIndices_buildGrid]
      exact hiE
    exact mem_getNearbyEntities (buildGrid g es) E F i hiE2 hgrid
  · intro scale g' pl ds h
    unfold checkPlayerCollisionWithDangerousEntitiesOptimized at h
    by_cases hds : ds = []
    · rw [if_pos hds] at h
      subst hds
      simp [checkPlayerCollisionWithDangerousEntities] at h
    · rw [if_neg hds, List.any_eq_true] at h
      obtain ⟨e, he, hopt⟩ := h
      rw [List.mem_filter] at he
      have hmem : e ∈ ds := by
        have h2 := he.2
        simp only [Bool.and_eq_true, decide_eq_true_eq] at h2
        exact h2.1
      exact ⟨e, hmem, areCollidingOptimized_true_of pl e hopt⟩

/-- Witness for C2: a two-by-two grid, one inserted entity overlapping the
query entity, found by the query. -/
theorem grid_query_no_false_negatives_witness :
    (⟨55, 50, 10, 0, 0, 0, false⟩ : Entity) ∈
      (buildGrid (mkSpatialGrid 200 200 100) [⟨55, 50, 10, 0, 0, 0, false⟩]).getNearbyEntities
        ⟨50, 50, 10, 0, 0, 0, false⟩ :=
  (grid_query_no_false_negatives (mkSpatialGrid 200 200 100) [⟨55, 50, 10, 0, 0, 0, false⟩]
    ⟨50, 50, 10, 0, 0, 0, false⟩ ⟨55, 50, 10, 0, 0, 0, false⟩
    (by norm_num [mkSpatialGrid])
    (List.mem_singleton.mpr rfl)
    (by
      norm_num [SpatialGrid.cellIndices, intRange, mkSpatialGrid, SpatialGrid.minCellX,
        SpatialGrid.maxCellX, SpatialGrid.minCellY, SpatialGrid.maxCellY])
    (by
      norm_num [SpatialGrid.cellIndices, intRange, mkSpatialGrid, SpatialGrid.minCellX,
        SpatialGrid.maxCellX, SpatialGrid.minCellY, SpatialGrid.maxCellY])
    (by norm_num)
    (by norm_num)).1

/-- C5 (amended): in the collision sweep, dangerous entities are checked
before pickups and a true overlap with a planet (or, with no planet hit,
with a comet) ends the sweep immediately in `GAME_OVER`, with the score and
the star collection of that sweep untouched; however, the level-completion
check of the same tick still runs after the sweep, and can supersede the
game-over state when the score has already reached the threshold (see the
counterexample). -/
theorem checkCollisions_fatal_short_circuit (env : Env) (g : Game) :
    (g.planets.any (fun p => collides g.player p) = true →
      checkCollisions env g = gameOver g ∧
      (checkCollisions env g).score = g.score ∧
      (checkCollisions env g).collectableStars = g.collectableStars ∧
      (checkCollisions env g).gameState = GState.GAME_OVER) ∧
    (g.planets.any (fun p => collides g.player p) = false →
      g.comets.any (fun c => collides g.player c) = true →
      checkCollisions env g = gameOver g) := by
  constructor
  · intro h
    simp [checkCollisions, gameOver, h]
  · intro h1 h2
    simp [checkCollisions, gameOver, h1, h2]

/-- Witness for C5: a player overlapping a planet makes the sweep end in
game over with the score unchanged. -/
theorem checkCollisions_fatal_short_circuit_witness :
    (checkCollisions cxEnv cxGame5).gameState = GState.GAME_OVER ∧
      (checkCollisions cxEnv cxGame5).score = cxGame5.score :=
  ⟨((checkCollisions_fatal_short_circuit cxEnv cxGame5).1
      (by norm_num [cxGame5, cxPlanet, collides, getDistanceSquared])).2.2.2,
    ((checkCollisions_fatal_short_circuit cxEnv cxGame5).1
      (by norm_num [cxGame5, cxPlanet, collides, getDistanceSquared])).2.1⟩

/-- Counterexample for C5 as stated: the player overlaps a planet, the
sweep sets `GAME_OVER`, yet the same tick's level-completion check still
runs, increments the level, and leaves the game in `LEVEL_TRANSITION`
rather than `GAME_OVER`. -/
theorem update_overrides_game_over :
    collides cxGame5.player cxPlanet = true ∧
      (update cxEnv constHalf 0 cxGame5).1.gameState = GState.LEVEL_TRANSITION ∧
      (update cxEnv constHalf 0 cxGame5).1.currentLevel = 2 := by
  norm_num [update, cxGame5, cxEnv, cxPlanet, constHalf, updatePlanets, updateEntityWithBounce,
    advanceEntity, updateComets, forEachIdx, cometStep, updatePlayer, spawnCollectableStars,
    STAR_SPAWN_RATE, checkCollisions, collides, getDistanceSquared, collectStars, starStep,
    gameOver, checkLevelCompletion, requiredScoreFor, BASE_SCORE_THRESHOLD,
    SCORE_THRESHOLD_MULTIPLIER, startLevel, generatePlanetsForLevel, randomPlanets,
    createRandomPlanet, generateComet, COMET_START_LEVEL, BASE_PLANET_COUNT,
    PLANET_COUNT_PER_LEVEL]

end Stardust
